import Mathlib

/-!
# Verification of the `psychopy.async_microphone` streaming-audio subsystem

Shallow embedding of `src/psychopy/async_microphone.py`: the `Observable`
broadcaster, the `AsyncMicrophone` capture source, the `FFTPeak` sliding-window
spectral estimator and the `WaveRecorder` stream recorder, together with proofs
and refutations of the specification's claims about them.

Conventions of the embedding:
* Python floats are modelled as rationals (`ℚ`); machine `int16` samples as `ℤ`.
* Mutable objects become explicit state records; a method that can raise is a
  function returning `State × Option PyError` — the returned state reflects all
  mutations performed before the exception was raised (Python semantics: a
  raised exception does not roll attribute assignments back).
* `psychopy.constants.NOT_STARTED / STARTED / FINISHED` become `Status`.
-/

namespace AsyncMicrophone

/-- The status constants `NOT_STARTED`, `STARTED`, `FINISHED` imported from
`psychopy.constants` and stored in every component's `status` attribute. -/
inductive Status where
  | notStarted
  | started
  | finished
deriving DecidableEq, Repr

/-- The Python exceptions that the embedded code can raise.
`soundCaptureException` is the module's own `SoundCaptureException`;
`nameErrorItertools` is the `NameError` raised at
`itertools.chain.from_iterable` on line 175 because the module never imports
`itertools`; `attributeError` stands for an `AttributeError`; `listenerError n`
is an arbitrary exception raised by a registered listener in a test. -/
inductive PyError where
  | soundCaptureException
  | nameErrorItertools
  | attributeError
  | listenerError (n : ℕ)
deriving DecidableEq, Repr

/-- One captured audio buffer: an ordered sequence of signed 16-bit PCM
samples (`numpy.fromstring(in_data, dtype=numpy.int16)`), modelled as a list of
integers. -/
abbrev Buffer := List ℤ

/-- Python's `int(...)` conversion on a real number: truncation toward zero
(floor for nonnegative arguments, ceiling for negative ones). Used on line 65,
`self.buffer_size = int(sample_rate * buffer_duration)`. -/
def pythonInt (q : ℚ) : ℤ :=
  if 0 ≤ q then ⌊q⌋ else ⌈q⌉

/-! ## `Observable` (the buffer broadcaster)

```python
class Observable(object):
    def __init__(self):
        self._funcs = []
    def register(self, func):
        self._funcs.append(func)
    def __call__(self, *args, **kwargs):
        for func in self._funcs:
            func(*args, **kwargs)
```

`__call__` iterates over the registered listeners in registration order and
invokes each with the same arguments.  There is no `try`/`except`: an
exception raised by a listener propagates out of `__call__` immediately,
so later listeners are not invoked.

A listener is modelled as a function `α → Except E Unit` (it either returns
or raises).  `observableCallRun` executes `__call__` and additionally records
the trace of performed invocations: the list of arguments passed, one entry
per listener actually invoked, in invocation order.  The second component is
the exception propagated to the caller, if any. -/

/-- Model of `Observable.__call__`: invoke listeners in registration order until the
first one that raises; return the invocation trace (argument passed at each
performed call, in order) and the propagated exception. -/
def observableCallRun {α E : Type} : List (α → Except E Unit) → α → List α × Option E
  | [], _ => ([], none)
  | f :: fs, x =>
    match f x with
    | .ok _ =>
      let r := observableCallRun fs x
      (x :: r.1, r.2)
    | .error e => ([x], some e)

/-! ## `AsyncMicrophone`

```python
def __init__(self, channels=1, sample_rate=44200, buffer_duration=0.010):
    self.format = pyaudio.paInt16
    self.sample_size = pa.get_sample_size(self.format)   # = 2 bytes
    self.channels = channels
    self.sample_rate = sample_rate
    self.sample_freq = 1.0 / sample_rate
    self.buffer_duration = buffer_duration
    self.buffer_size = int(sample_rate * buffer_duration)
    self._audio_stream = None
    self.status = NOT_STARTED
```
-/

/-- The pyaudio stream handle created by `pa.open(...)`.  Only its
open/closed disposition is relevant to the claims. -/
structure AudioStream where
  closed : Bool
deriving DecidableEq, Repr

/-- The attribute state of an `AsyncMicrophone` instance. -/
structure MicState where
  channels : ℕ
  sampleRate : ℕ
  /-- Value of `pa.get_sample_size(pyaudio.paInt16)`, which is 2 bytes. -/
  sampleSize : ℕ
  bufferDuration : ℚ
  bufferSize : ℤ
  audioStream : Option AudioStream
  status : Status
deriving DecidableEq, Repr

/-- Model of `AsyncMicrophone.__init__`. -/
def micInit (channels : ℕ := 1) (sampleRate : ℕ := 44200)
    (bufferDuration : ℚ := 1 / 100) : MicState :=
  { channels := channels
    sampleRate := sampleRate
    sampleSize := 2
    bufferDuration := bufferDuration
    bufferSize := pythonInt (sampleRate * bufferDuration)
    audioStream := none
    status := .notStarted }

/-- Model of `AsyncMicrophone.open` (the `duration=None` case; the duration timer only
schedules `close` later and is external scheduling).

```python
def open(self, duration=None):
    if self._audio_stream:
        raise SoundCaptureException(...)
    self._audio_stream = pa.open(...)
    self.status = STARTED
```

`if self._audio_stream:` tests truthiness: `None` is falsy, a stream object is
truthy, so the test is `isSome`.  The raise happens before any attribute is
assigned, so on error the state is returned unchanged. -/
def micOpen (st : MicState) : MicState × Option PyError :=
  if st.audioStream.isSome then
    (st, some .soundCaptureException)
  else
    ({ st with audioStream := some ⟨false⟩, status := .started }, none)

/-- Model of `AsyncMicrophone.close`.

```python
def close(self):
    if self.status is STARTED:
        self._audio_stream.close()
    self.status = FINISHED
```

Note that `self._audio_stream` is never reset to `None`.  (If `status` were
`STARTED` with no stream — unreachable from `micInit` — the call
`None.close()` would raise `AttributeError` before `status` is assigned.) -/
def micClose (st : MicState) : MicState × Option PyError :=
  if st.status = .started then
    match st.audioStream with
    | some s => ({ st with audioStream := some { s with closed := true },
                           status := .finished }, none)
    | none => (st, some .attributeError)
  else
    ({ st with status := .finished }, none)

/-- An externally invokable operation on an `AsyncMicrophone` instance, for
lifetime traces. -/
inductive MicOp where
  | openOp
  | closeOp
deriving DecidableEq, Repr

/-- Run a sequence of `open()`/`close()` calls on a microphone, counting how
many of the `open()` calls completed successfully (raised no exception). -/
def micRun (st : MicState) : List MicOp → MicState × ℕ
  | [] => (st, 0)
  | .openOp :: ops =>
    let r := micOpen st
    let rest := micRun r.1 ops
    (rest.1, (if r.2 = none then 1 else 0) + rest.2)
  | .closeOp :: ops => micRun (micClose st).1 ops

/-! ## `FFTPeak` (the sliding-window spectral estimator)

```python
def __init__(self, async_mic, scanning_range, buffer_count=10):
    self._mic = async_mic
    self._data = []
    self._buffer_count = buffer_count
    ...
    self._f0 = None
    self.status = NOT_STARTED

@qtgui.qtSlot(numpy.ndarray)
def _update(self, data):
    self._data.append(data)
    while len(self._data) > self._buffer_count:
        self._data.pop(0)
    if len(self._data) == self._buffer_count:
        size = sum(map(len, self._data))
        full_data = numpy.fromiter(
            itertools.chain.from_iterable(self._data), ...)
        ...
```

The module's import list is `threading`, `wave`, `numpy`, `pyaudio`,
`scipy.signal` plus names from `psychopy`; `itertools` is NOT among them, so
evaluating `itertools.chain.from_iterable(self._data)` — the first expression
of the analysis branch — raises `NameError: name 'itertools' is not defined`
whenever the branch is entered.  Every later statement of the branch
(the FFT, `scipy.signal.argrelmax`, the peak selection, `self._update_f0`)
is unreachable.  (Even if the import were added, line 193 reads
`self.x_values[idx_of_max]`, but the only attribute ever assigned is
`self._x_values` on line 126, so the branch would still raise
`AttributeError` before `_update_f0` could run.)  Consequently `_f0` is
mutated nowhere reachable. -/

/-- The mutable state of an `FFTPeak` instance relevant to buffer handling:
the sliding window `_data`, the capacity `_buffer_count`, the current peak
estimate `_f0` (frequency in Hz, `None` until first set) and `status`. -/
structure FFTPeakState where
  data : List Buffer
  bufferCount : ℕ
  f0 : Option ℚ
  status : Status
deriving DecidableEq, Repr

/-- The window/estimate state established by `FFTPeak.__init__`
(`self._data = []`, `self._f0 = None`, `self.status = NOT_STARTED`). -/
def fftpeakInit (bufferCount : ℕ := 10) : FFTPeakState :=
  { data := [], bufferCount := bufferCount, f0 := none, status := .notStarted }

/-- The body of the `if len(self._data) == self._buffer_count:` branch of
`FFTPeak._update`.  Its first statement evaluates
`itertools.chain.from_iterable(self._data)`, and `itertools` is not imported
by the module, so the branch raises `NameError` immediately; no attribute is
mutated by it. -/
def fftpeakAnalyze (s : FFTPeakState) : FFTPeakState × Option PyError :=
  (s, some .nameErrorItertools)

/-- The window-maintenance phase of `FFTPeak._update`: `self._data.append(data)`
followed by `while len(self._data) > self._buffer_count: self._data.pop(0)`.
Popping from the front until the length is at most `_buffer_count` equals
dropping the excess from the front in one step. -/
def windowAfter (s : FFTPeakState) (b : Buffer) : List Buffer :=
  (s.data ++ [b]).drop ((s.data ++ [b]).length - s.bufferCount)

/-- Model of `FFTPeak._update(data)`: append the buffer to the window, evict from the
front while the window exceeds `_buffer_count`, and enter the analysis branch
exactly when the window length equals `_buffer_count`.  The returned state
carries the window mutations even when the analysis branch raises. -/
def fftpeakUpdate (s : FFTPeakState) (b : Buffer) : FFTPeakState × Option PyError :=
  if (windowAfter s b).length = s.bufferCount then
    fftpeakAnalyze { s with data := windowAfter s b }
  else
    ({ s with data := windowAfter s b }, none)

/-- Deliver a sequence of buffers to `_update` one at a time, oldest first
(the state mutations persist across deliveries; any raised exception
propagates out of the Qt slot and does not touch the state). -/
def fftpeakRun (s : FFTPeakState) (bs : List Buffer) : FFTPeakState :=
  bs.foldl (fun st b => (fftpeakUpdate st b).1) s

/-! ## `WaveRecorder`

```python
def __init__(self, async_mic):
    self._mic = async_mic
    self.status = NOT_STARTED
    self._mic.buffer_ready.register(self._add_data)

def begin(self, file_name):
    if self.status is not STARTED:
        time = core.getTime()
        file_on_set = time - int(time) + core.getAbsTime()
        file_name = "{}-{:.3f}.wav".format(file_name, file_on_set)
        self._wave_file = wave.open(file_name, mode='wb')
        self._wave_file.setnchannels(self._mic.channels)
        self._wave_file.setsampwidth(self._mic.sample_size)
        self._wave_file.setframerate(self._mic.sample_rate)
        self.status = STARTED

def close(self):
    if self.status is STARTED:
        self._wave_file.close()
    self.status = FINISHED

def _add_data(self, data):
    if self.status is STARTED:
        self._wave_file.writeframes(data)
```
-/

/-- A wave file opened by `wave.open(name, mode='wb')` together with the
header fields set through `setnchannels`/`setsampwidth`/`setframerate` and
the frames appended by `writeframes`.  `baseName` is the `file_name` argument
given to `begin`; the wall-clock timestamp suffix appended to it is an
external input and is abstracted away.  `frames` is the decoded sample
stream, in write order. -/
structure WaveFile where
  baseName : String
  nchannels : ℕ
  sampwidth : ℕ
  framerate : ℕ
  frames : List ℤ
  closed : Bool
deriving DecidableEq, Repr

/-- The state of a `WaveRecorder` instance.  `files` lists every wave file
the instance has ever opened, oldest first; `_wave_file` is the last entry
(the attribute is simply overwritten if `begin` opens another file). -/
structure RecorderState where
  status : Status
  files : List WaveFile
deriving DecidableEq, Repr

/-- Model of `WaveRecorder.__init__`: no file yet, `status = NOT_STARTED`. -/
def recorderInit : RecorderState :=
  { status := .notStarted, files := [] }

/-- Replace the last element of a list (models assigning to the attribute
holding the current wave file). -/
def setLast {α : Type} (xs : List α) (f : α → α) : List α :=
  match xs with
  | [] => []
  | [x] => [f x]
  | x :: rest => x :: setLast rest f

/-- Model of `WaveRecorder.begin(file_name)`: when not currently recording
(`status is not STARTED` — this includes both `NOT_STARTED` and `FINISHED`),
open a fresh wave file, write the header from the microphone's configuration
and arm the recorder; while recording it is a no-op. -/
def recorderBegin (mic : MicState) (st : RecorderState) (fileName : String) :
    RecorderState :=
  if st.status ≠ .started then
    { status := .started
      files := st.files ++
        [{ baseName := fileName
           nchannels := mic.channels
           sampwidth := mic.sampleSize
           framerate := mic.sampleRate
           frames := []
           closed := false }] }
  else st

/-- Model of `WaveRecorder._add_data(data)`: while armed, append the buffer's samples
to the current wave file; otherwise discard the buffer silently. -/
def recorderAddData (st : RecorderState) (b : Buffer) : RecorderState :=
  if st.status = .started then
    { st with files := setLast st.files (fun w => { w with frames := w.frames ++ b }) }
  else st

/-- Model of `WaveRecorder.close()`: while armed, close the current wave file;
unconditionally set `status = FINISHED`. -/
def recorderClose (st : RecorderState) : RecorderState :=
  if st.status = .started then
    { status := .finished
      files := setLast st.files (fun w => { w with closed := true }) }
  else { st with status := .finished }

/-! ## Spec-side definitions (for refinement comparison only) -/

/-- Modelled from the spec's words, for comparison with the code's
`micInit`/`pythonInt`: "buffer duration (s) → buffer size in samples
(`round(sample_rate * buffer_duration)`)", i.e. the product rounded to the
nearest integer. -/
def specRoundBufferSize (sampleRate : ℕ) (bufferDuration : ℚ) : ℤ :=
  round ((sampleRate : ℚ) * bufferDuration)

/-! ## Concrete listeners used in tests -/

/-- A registered listener that raises an exception when invoked. -/
def raisingListener : Buffer → Except PyError Unit :=
  fun _ => .error (.listenerError 0)

/-- A registered listener that returns normally when invoked. -/
def okListener : Buffer → Except PyError Unit :=
  fun _ => .ok ()

/-! # Helper lemmas -/

/-- Closing a microphone never clears the stored stream handle:
`close` assigns `self.status` but leaves `self._audio_stream` a stream
object whenever it was one. -/
theorem micClose_audioStream_isSome (st : MicState) :
    (micClose st).1.audioStream.isSome = st.audioStream.isSome := by
  unfold micClose
  rcases h : st.audioStream with _ | s <;> split <;> simp [h]

/-- Once the stream handle is set, no `open()` in any later sequence of
`open`/`close` calls can succeed. -/
theorem micRun_zero_of_isSome (ops : List MicOp) (st : MicState)
    (h : st.audioStream.isSome) : (micRun st ops).2 = 0 := by
  induction ops generalizing st with
  | nil => rfl
  | cons op ops ih =>
    cases op with
    | openOp =>
      have hopen : micOpen st = (st, some .soundCaptureException) := by
        unfold micOpen; simp [h]
      simp [micRun, hopen, ih st h]
    | closeOp =>
      have h' : (micClose st).1.audioStream.isSome := by
        rw [micClose_audioStream_isSome]; exact h
      simp [micRun, ih _ h']

/-- Dropping no more than the first list's length from an append drops only
inside the first list. -/
theorem drop_append_left {A : Type} (l1 l2 : List A) (k : ℕ) (hk : k ≤ l1.length) :
    (l1 ++ l2).drop k = l1.drop k ++ l2 := by
  rw [List.drop_append_eq_append_drop, Nat.sub_eq_zero_of_le hk, List.drop_zero]

/-- The maintained window, written with the appended length computed out. -/
theorem windowAfter_eq (s : FFTPeakState) (b : Buffer) :
    windowAfter s b = (s.data ++ [b]).drop (s.data.length + 1 - s.bufferCount) := by
  unfold windowAfter; simp

/-- Length of the maintained window. -/
theorem length_windowAfter (s : FFTPeakState) (b : Buffer) :
    (windowAfter s b).length
      = s.data.length + 1 - (s.data.length + 1 - s.bufferCount) := by
  unfold windowAfter; simp

/-- A state update by `FFTPeak._update` always yields the drop-from-the-front
window and touches no other attribute (in particular `_f0` and `status` are
unchanged: the analysis branch raises before mutating anything). -/
theorem fftpeakUpdate_fst (s : FFTPeakState) (b : Buffer) :
    (fftpeakUpdate s b).1 = { s with data := windowAfter s b } := by
  unfold fftpeakUpdate fftpeakAnalyze
  split <;> rfl

/-- The analysis branch of `FFTPeak._update` is entered — observable as the
`NameError` it raises — exactly when the maintained window's length equals
`_buffer_count`. -/
theorem fftpeakUpdate_snd (s : FFTPeakState) (b : Buffer) :
    (fftpeakUpdate s b).2 ≠ none ↔ (fftpeakUpdate s b).1.data.length = s.bufferCount := by
  rw [fftpeakUpdate_fst]
  unfold fftpeakUpdate fftpeakAnalyze
  split <;> simp_all

/-- Characterization of the window contents after a sequence of deliveries:
starting from a window shorter than the capacity, the window afterwards is
the input stream with all but the last `bufferCount` elements dropped. -/
theorem fftpeakRun_data (bs : List Buffer) (s : FFTPeakState)
    (h : s.data.length ≤ s.bufferCount) :
    (fftpeakRun s bs).data =
      (s.data ++ bs).drop (s.data.length + bs.length - s.bufferCount) := by
  induction bs generalizing s with
  | nil =>
    simp only [fftpeakRun, List.foldl_nil, List.append_nil, List.length_nil,
      Nat.add_zero]
    rw [Nat.sub_eq_zero_of_le h, List.drop_zero]
  | cons b bs ih =>
    have hstep : fftpeakRun s (b :: bs) = fftpeakRun (fftpeakUpdate s b).1 bs := by
      simp [fftpeakRun]
    have hwlen := length_windowAfter s b
    have hinv : (windowAfter s b).length ≤ s.bufferCount := by omega
    rw [hstep, fftpeakUpdate_fst, ih _ hinv]
    show (windowAfter s b ++ bs).drop
        ((windowAfter s b).length + bs.length - s.bufferCount)
      = (s.data ++ b :: bs).drop (s.data.length + (b :: bs).length - s.bufferCount)
    have hlen2 : (s.data ++ [b]).length = s.data.length + 1 := by simp
    have happ : windowAfter s b ++ bs
        = ((s.data ++ [b]) ++ bs).drop (s.data.length + 1 - s.bufferCount) := by
      rw [windowAfter_eq]
      exact (drop_append_left _ _ _ (by rw [hlen2]; omega)).symm
    rw [happ, List.drop_drop, List.append_assoc, List.singleton_append]
    congr 1
    simp only [List.length_cons]
    omega

/-- Feeding buffers after `begin` appends their samples, in order, to the one
file opened by `begin`. -/
theorem foldl_addData_singleton (bs : List Buffer) (w : WaveFile) :
    bs.foldl recorderAddData { status := .started, files := [w] } =
      { status := .started, files := [{ w with frames := w.frames ++ bs.flatten }] } := by
  induction bs generalizing w with
  | nil => simp
  | cons b bs ih =>
    have hstep : recorderAddData { status := .started, files := [w] } b =
        { status := Status.started,
          files := [{ w with frames := w.frames ++ b }] } := by
      simp [recorderAddData, setLast]
    rw [List.foldl_cons, hstep, ih]
    simp

/-- Closing a microphone that has no stream handle leaves the handle unset
(whatever branch is taken, `close` assigns only `status`). -/
theorem micClose_audioStream_none (st : MicState) (h : st.audioStream = none) :
    (micClose st).1.audioStream = none := by
  unfold micClose
  split <;> simp_all

/-- Starting from a microphone with no stream handle, at most one `open()`
in any sequence of `open`/`close` calls succeeds. -/
theorem micRun_le_one_of_none (ops : List MicOp) (st : MicState)
    (h : st.audioStream = none) : (micRun st ops).2 ≤ 1 := by
  induction ops generalizing st with
  | nil => simp [micRun]
  | cons op ops ih =>
    cases op with
    | openOp =>
      have hopen : micOpen st
          = ({ st with audioStream := some ⟨false⟩, status := .started }, none) := by
        unfold micOpen; simp [h]
      have hz : (micRun { st with audioStream := some ⟨false⟩, status := Status.started } ops).2 = 0 :=
        micRun_zero_of_isSome ops _ (by simp)
      simp [micRun, hopen, hz]
    | closeOp =>
      have h' : (micClose st).1.audioStream = none := micClose_audioStream_none st h
      simp [micRun, ih _ h']

/-! # The claims -/

/-- **C5 counterexample.** The spec says the buffer size is
`round(sample_rate * buffer_duration)`.  For `sample_rate = 4` and
`buffer_duration = 0.7` the product is `2.8`; the constructor computes
`int(2.8) = 2` while rounding to the nearest integer gives `3`. -/
theorem bufferSize_not_round_counterexample :
    (micInit 1 4 (7 / 10)).bufferSize = 2
      ∧ specRoundBufferSize 4 (7 / 10) = 3
      ∧ (micInit 1 4 (7 / 10)).bufferSize ≠ specRoundBufferSize 4 (7 / 10) := by
  refine ⟨?_, ?_, ?_⟩
  · show pythonInt ((4 : ℕ) * (7 / 10 : ℚ)) = 2
    norm_num [pythonInt]
  · show round (((4 : ℕ) : ℚ) * (7 / 10 : ℚ)) = 3
    norm_num [round_eq]
  · show pythonInt ((4 : ℕ) * (7 / 10 : ℚ)) ≠ round (((4 : ℕ) : ℚ) * (7 / 10 : ℚ))
    norm_num [pythonInt, round_eq]

/-- **C5 (amended).** For every channel count, sample rate and nonnegative
buffer duration, the constructor's computed buffer size equals
`int(sample_rate * buffer_duration)`: the product truncated toward zero
(its floor, for a nonnegative product) — not rounded to the nearest
integer. -/
theorem micInit_bufferSize_floor (channels sampleRate : ℕ) (bufferDuration : ℚ)
    (h : 0 ≤ bufferDuration) :
    (micInit channels sampleRate bufferDuration).bufferSize
      = ⌊(sampleRate : ℚ) * bufferDuration⌋ := by
  have h0 : (0 : ℚ) ≤ (sampleRate : ℚ) * bufferDuration :=
    mul_nonneg (by positivity) h
  simp [micInit, pythonInt, h0]

/-- Witness for `micInit_bufferSize_floor` at the constructor's default
arguments (`sample_rate = 44200`, `buffer_duration = 0.010`). -/
theorem micInit_bufferSize_floor_witness :
    (0 : ℚ) ≤ 1 / 100
      ∧ (micInit 1 44200 (1 / 100)).bufferSize = ⌊(44200 : ℚ) * (1 / 100 : ℚ)⌋ :=
  ⟨by norm_num, micInit_bufferSize_floor 1 44200 (1 / 100) (by norm_num)⟩

/-- **C8.** Calling `open()` on a microphone that already has an open stream
raises `SoundCaptureException` and leaves the state unchanged: the raise is
the first statement of `open`, before any attribute assignment, so no new
stream is created and `status` remains `STARTED`. -/
theorem micOpen_already_open (st : MicState) (s : AudioStream)
    (hs : st.audioStream = some s) (hst : st.status = Status.started) :
    micOpen st = (st, some PyError.soundCaptureException) := by
  unfold micOpen
  simp [hs]

/-- Witness for `micOpen_already_open`: a freshly opened default microphone,
opened a second time. -/
theorem micOpen_already_open_witness :
    micOpen ((micOpen micInit).1)
      = ((micOpen micInit).1, some PyError.soundCaptureException) :=
  micOpen_already_open ((micOpen micInit).1) ⟨false⟩ rfl rfl

/-- **C10.** Since `close()` never clears `_audio_stream`, an `open()` call
on a microphone whose handle is set still raises `SoundCaptureException`
even right after `close()`; and over any sequence of `open`/`close` calls on
a fresh instance at most one `open()` ever succeeds — the spec's
close-then-reopen path does not exist. -/
theorem mic_open_at_most_once :
    (∀ st : MicState, st.audioStream.isSome →
        micOpen (micClose st).1
          = ((micClose st).1, some PyError.soundCaptureException))
      ∧ ∀ ops : List MicOp, (micRun micInit ops).2 ≤ 1 := by
  constructor
  · intro st h
    have h' : (micClose st).1.audioStream.isSome = true := by
      rw [micClose_audioStream_isSome]; exact h
    unfold micOpen
    simp [h']
  · intro ops
    exact micRun_le_one_of_none ops micInit rfl

/-- Witness for `mic_open_at_most_once`: open, close, then open again on the
default microphone — the second `open` raises. -/
theorem mic_open_at_most_once_witness :
    micOpen (micClose ((micOpen micInit).1)).1
      = ((micClose ((micOpen micInit).1)).1, some PyError.soundCaptureException) :=
  mic_open_at_most_once.1 ((micOpen micInit).1) rfl

/-- **C2 counterexample.** With two registered listeners of which the first
raises, `Observable.__call__` performs only one invocation — the second
listener never receives the buffer — and the exception propagates to the
caller: there is no per-listener isolation or logging in the code. -/
theorem observable_isolation_counterexample :
    observableCallRun [raisingListener, okListener] ([3, 1] : Buffer)
        = ([[3, 1]], some (PyError.listenerError 0))
      ∧ (observableCallRun [raisingListener, okListener] ([3, 1] : Buffer)).1.length ≠ 2
      ∧ (observableCallRun [raisingListener, okListener] ([3, 1] : Buffer)).2 ≠ none := by
  refine ⟨rfl, ?_, ?_⟩ <;> decide

/-- **C2 (amended).** `Observable.__call__` invokes the listeners in
registration order, passing the same buffer to each, until the first listener
that raises: when none raises, every listener is invoked once with the
published buffer; when one raises, the listeners before it and it itself are
invoked and its exception propagates to the caller, so the remaining
listeners are not invoked. -/
theorem observableCall_ordered_delivery (α : Type) :
    (∀ (funcs : List (α → Except PyError Unit)) (x : α),
        (∀ g ∈ funcs, g x = .ok ()) →
        observableCallRun funcs x = (List.replicate funcs.length x, none))
      ∧ ∀ (pre post : List (α → Except PyError Unit))
          (f : α → Except PyError Unit) (x : α) (e : PyError),
          (∀ g ∈ pre, g x = .ok ()) → f x = .error e →
          observableCallRun (pre ++ f :: post) x
            = (List.replicate (pre.length + 1) x, some e) := by
  constructor
  · intro funcs x hok
    induction funcs with
    | nil => rfl
    | cons g gs ih =>
      have hg : g x = .ok () := hok g (List.mem_cons_self g gs)
      have ihs := ih (fun g' hg' => hok g' (List.mem_cons_of_mem _ hg'))
      simp [observableCallRun, hg, ihs, List.replicate_succ]
  · intro pre post f x e hok hf
    induction pre with
    | nil =>
      simp [observableCallRun, hf, List.replicate]
    | cons g gs ih =>
      have hg : g x = .ok () := hok g (List.mem_cons_self g gs)
      have ihs := ih (fun g' hg' => hok g' (List.mem_cons_of_mem _ hg'))
      simp [observableCallRun, hg, ihs, List.replicate_succ]

/-- Witness for `observableCall_ordered_delivery`: a run where the single
listener succeeds, and a run where the middle of three listeners raises. -/
theorem observableCall_ordered_delivery_witness :
    observableCallRun [okListener] ([5] : Buffer) = (List.replicate 1 [5], none)
      ∧ observableCallRun ([okListener] ++ raisingListener :: [okListener]) ([5] : Buffer)
          = (List.replicate (1 + 1) [5], some (PyError.listenerError 0)) :=
  ⟨(observableCall_ordered_delivery Buffer).1 [okListener] [5]
      (by intro g hg; rw [List.mem_singleton] at hg; rw [hg]; rfl),
    (observableCall_ordered_delivery Buffer).2 [okListener] [okListener]
      raisingListener [5] (PyError.listenerError 0)
      (by intro g hg; rw [List.mem_singleton] at hg; rw [hg]; rfl) rfl⟩

/-- **C1 (code bug).** On any delivery that fills the estimator's window —
the claim's situation, in which the spec says the best in-band local maximum
is selected and published — `FFTPeak._update` instead raises `NameError`
(`itertools` is used on line 175 but never imported) before the FFT is even
computed, and the peak estimate `_f0` is left untouched. -/
theorem fftpeak_update_full_window_raises (s : FFTPeakState) (b : Buffer)
    (h : s.bufferCount ≤ s.data.length + 1) :
    (fftpeakUpdate s b).2 = some PyError.nameErrorItertools
      ∧ (fftpeakUpdate s b).1.f0 = s.f0 := by
  have hwlen := length_windowAfter s b
  have hfull : (windowAfter s b).length = s.bufferCount := by omega
  constructor
  · unfold fftpeakUpdate fftpeakAnalyze
    simp [hfull]
  · rw [fftpeakUpdate_fst]

/-- Witness for `fftpeak_update_full_window_raises`: a one-buffer window
receiving a buffer with an interior sample spike. -/
theorem fftpeak_update_full_window_raises_witness :
    (fftpeakInit 1).bufferCount ≤ (fftpeakInit 1).data.length + 1
      ∧ ((fftpeakUpdate (fftpeakInit 1) [0, 100, 0]).2
            = some PyError.nameErrorItertools
          ∧ (fftpeakUpdate (fftpeakInit 1) [0, 100, 0]).1.f0 = (fftpeakInit 1).f0) :=
  ⟨by decide, fftpeak_update_full_window_raises (fftpeakInit 1) [0, 100, 0] (by decide)⟩

/-- **C6.** Window discipline of the estimator: after any sequence of
deliveries the window holds exactly the most recent `min(k, N)` buffers in
arrival order (`bs.drop (bs.length - N)`), its length never exceeds the
configured capacity `N` and equals `N` from the `N`-th delivery on; and the
FFT-and-search branch of `_update` is entered exactly when the maintained
window's length equals `N`. -/
theorem fftpeak_window_invariant (N : ℕ) (bs : List Buffer) :
    (fftpeakRun (fftpeakInit N) bs).data = bs.drop (bs.length - N)
      ∧ (fftpeakRun (fftpeakInit N) bs).data.length ≤ N
      ∧ (N ≤ bs.length → (fftpeakRun (fftpeakInit N) bs).data.length = N)
      ∧ ∀ (s : FFTPeakState) (b : Buffer),
          ((fftpeakUpdate s b).2 ≠ none
            ↔ (fftpeakUpdate s b).1.data.length = s.bufferCount) := by
  have hdata := fftpeakRun_data bs (fftpeakInit N) (by simp [fftpeakInit])
  have hdata' : (fftpeakRun (fftpeakInit N) bs).data = bs.drop (bs.length - N) := by
    rw [hdata]
    show ([] ++ bs).drop (List.length [] + bs.length - N) = bs.drop (bs.length - N)
    simp
  refine ⟨hdata', ?_, ?_, fun s b => fftpeakUpdate_snd s b⟩
  · rw [hdata', List.length_drop]
    omega
  · intro hN
    rw [hdata', List.length_drop]
    omega

/-- Witness for `fftpeak_window_invariant`: capacity 2, three deliveries —
the window keeps the last two buffers. -/
theorem fftpeak_window_invariant_witness :
    (fftpeakRun (fftpeakInit 2) [[1], [2], [3]]).data = [[1], [2], [3]].drop 1
      ∧ (fftpeakRun (fftpeakInit 2) [[1], [2], [3]]).data.length = 2 :=
  ⟨(fftpeak_window_invariant 2 [[1], [2], [3]]).1,
    (fftpeak_window_invariant 2 [[1], [2], [3]]).2.2.1 (by decide)⟩

/-- **C7 (code bug).** An analysis step with zero in-band local maxima — here
two all-zero buffers filling a two-buffer window, whose magnitude spectrum is
identically zero — is claimed to raise no error and leave the estimate
unchanged.  The estimate is indeed left unchanged, but only because
`_update` raises `NameError` at the `itertools` concatenation before the
peak search: the quiet no-peak branch (`if len(peaks) is 0: pass`) is
unreachable. -/
theorem fftpeak_no_peaks_step_raises :
    (fftpeakUpdate (fftpeakRun (fftpeakInit 2) [List.replicate 4 0])
        (List.replicate 4 0)).2 = some PyError.nameErrorItertools
      ∧ (fftpeakUpdate (fftpeakRun (fftpeakInit 2) [List.replicate 4 0])
          (List.replicate 4 0)).1.f0 = none := by
  exact ⟨rfl, rfl⟩

/-- **C3 counterexample.** `begin` → `close` → `begin` on the same
`WaveRecorder` instance: the second `begin` runs (its guard is
`status is not STARTED`, and after `close` the status is `FINISHED`),
re-arming the recorder and opening a second file — `Closed` is not
terminal and no new session object is required. -/
theorem recorder_reopen_after_close_counterexample :
    (recorderBegin micInit
        (recorderClose (recorderBegin micInit recorderInit "session")) "session").status
        = Status.started
      ∧ (recorderBegin micInit
          (recorderClose (recorderBegin micInit recorderInit "session")) "session").files.length
          = 2 := by
  exact ⟨rfl, rfl⟩

/-- **C3 (amended).** `begin()` is a no-op only while the recorder is Armed;
in any other state — Idle or Closed, including right after `close()` — it
opens a new file and transitions the same instance back to Armed, so the
Closed state is not terminal for `begin`. -/
theorem recorderBegin_not_terminal (mic : MicState) (st : RecorderState)
    (name : String) :
    (st.status ≠ Status.started →
        (recorderBegin mic st name).status = Status.started
          ∧ (recorderBegin mic st name).files.length = st.files.length + 1)
      ∧ (st.status = Status.started → recorderBegin mic st name = st) := by
  constructor
  · intro h
    unfold recorderBegin
    simp [h]
  · intro h
    unfold recorderBegin
    simp [h]

/-- Witness for `recorderBegin_not_terminal`: a closed recorder re-armed by
`begin`. -/
theorem recorderBegin_not_terminal_witness :
    (recorderBegin micInit (recorderClose (recorderBegin micInit recorderInit "w")) "w").status
        = Status.started
      ∧ (recorderBegin micInit (recorderClose (recorderBegin micInit recorderInit "w")) "w").files.length
          = (recorderClose (recorderBegin micInit recorderInit "w")).files.length + 1 :=
  (recorderBegin_not_terminal micInit
    (recorderClose (recorderBegin micInit recorderInit "w")) "w").1 (by decide)

/-- **C9.** Recording round-trip: `begin(prefix)`, deliver `b1..bk` while
Armed, then `close()` yields exactly one file, closed, whose header fields
are the source microphone's channel count, sample width and sample rate and
whose sample stream is the concatenation of `b1..bk` in arrival order;
and a buffer delivered while the recorder is not Armed is discarded
silently. -/
theorem wave_recorder_roundtrip (mic : MicState) (name : String) (bs : List Buffer) :
    recorderClose (bs.foldl recorderAddData (recorderBegin mic recorderInit name))
        = { status := Status.finished,
            files := [{ baseName := name
                        nchannels := mic.channels
                        sampwidth := mic.sampleSize
                        framerate := mic.sampleRate
                        frames := bs.flatten
                        closed := true }] }
      ∧ ∀ (st : RecorderState) (b : Buffer),
          st.status ≠ Status.started → recorderAddData st b = st := by
  constructor
  · have hbegin : recorderBegin mic recorderInit name
        = { status := Status.started,
            files := [{ baseName := name, nchannels := mic.channels,
                        sampwidth := mic.sampleSize, framerate := mic.sampleRate,
                        frames := [], closed := false }] } := by
      unfold recorderBegin recorderInit
      simp
    rw [hbegin, foldl_addData_singleton]
    unfold recorderClose
    simp [setLast]
  · intro st b h
    unfold recorderAddData
    simp [h]

/-- Witness for `wave_recorder_roundtrip`: two buffers recorded through the
default microphone's configuration, plus a discarded delivery on an idle
recorder. -/
theorem wave_recorder_roundtrip_witness :
    recorderClose ([[1, 2], [3]].foldl recorderAddData
        (recorderBegin micInit recorderInit "rec"))
        = { status := Status.finished,
            files := [{ baseName := "rec", nchannels := 1, sampwidth := 2,
                        framerate := 44200, frames := [1, 2, 3], closed := true }] }
      ∧ recorderAddData recorderInit [7] = recorderInit := by
  refine ⟨?_, ?_⟩
  · exact (wave_recorder_roundtrip micInit "rec" [[1, 2], [3]]).1
  · exact (wave_recorder_roundtrip micInit "rec" [[1, 2], [3]]).2 recorderInit [7] (by decide)

end AsyncMicrophone
